import Mathlib

/-!
Shallow embedding of the Scattergun entropy tools
(src/Scattergun/src/quantistool.c and src/Scattergun/src/seventool.c).

Each tool's acquisition loop is modelled as a deterministic transition
function on an explicit state, driven by a list of environment events
(signal deliveries, device open results, read results, sink write
results).  The points at which the C code consults its `done` and
`report` flags, increments its counters, and forwards a buffer to the
sink are reproduced exactly from the source; the external outcomes
(Quantis library calls, rdrand carry flag, fwrite result, nanosleep
result, signal delivery) are supplied by the event list.
-/

namespace Quantistool

/-- The two Quantis device types, from `TYPES[]` in quantistool.c line 59:
QUANTIS_DEVICE_PCI and QUANTIS_DEVICE_USB. -/
inductive DevType where
  | pci
  | usb
deriving DecidableEq, Repr

/-- The per-unit information the query loop inspects.  Of all the fields
`query` reads (hardware version, serial, manufacturer, power, mask,
status), only the modules-status bitmask influences the returned value
(quantistool.c lines 214-222). -/
structure DeviceInfo where
  status : Nat
deriving DecidableEq, Repr

/-- The devices visible on the two busses; `QuantisCount(type)` is the
length of the corresponding list and `QuantisGetModulesStatus(type, jj)`
is the status of element `jj`. -/
structure Bus where
  pci : List DeviceInfo
  usb : List DeviceInfo
deriving DecidableEq, Repr

/-- Devices of one type, as enumerated by the query loop. -/
def Bus.devs (b : Bus) : DevType → List DeviceInfo
  | DevType.pci => b.pci
  | DevType.usb => b.usb

/-- The inner scan of `query` (quantistool.c lines 191-225): for each unit
index `jj` of the detected devices of type `t`, the sticky flag `rc` is
set when `want == type`, `unit == jj` and the status bitmask is nonzero;
nothing ever clears `rc`. -/
def queryScan (want t : DevType) (unit : Nat) : List DeviceInfo → Nat → Bool
  | [], _ => false
  | d :: rest, jj =>
      (decide (want = t) && decide (unit = jj) && decide (d.status ≠ 0))
      || queryScan want t unit rest (jj + 1)

/-- `query(want, unit)` from quantistool.c lines 165-229: iterate over
`TYPES = {PCI, USB}` in order, scanning each type's detected units; the
result is the sticky `rc`. -/
def query (b : Bus) (want : DevType) (unit : Nat) : Bool :=
  queryScan want DevType.pci unit b.pci 0 || queryScan want DevType.usb unit b.usb 0

/-- Availability in the words of the spec (section 4.3): "true iff the
specifically requested (type, instance) pair exists and its status
bitmask is non-zero".  Stated from the spec, to be compared with the
source-derived `query`. -/
def deviceAvailableSpec (b : Bus) (want : DevType) (unit : Nat) : Bool :=
  match (b.devs want)[unit]? with
  | some d => decide (d.status ≠ 0)
  | none => false

/-- Control points of the work loop at which an external outcome is
consumed: about to call QuantisOpen (line 446), about to perform the
first read attempt of an iteration (line 466), about to perform the
immediate retry (line 469), about to call fwrite (line 480), or out of
the loop for good. -/
inductive Pc where
  | atOpen
  | atRead1
  | atRead2
  | atWrite
  | terminated
deriving DecidableEq, Repr

/-- Signals the handler reacts to (quantistool.c lines 126-137):
SIGPIPE and SIGINT set `done`, SIGHUP sets `report`, anything else is
ignored. -/
inductive Sig where
  | sigpipe
  | sigint
  | sighup
  | other
deriving DecidableEq, Repr

/-- External events driving the work loop: an asynchronous signal
delivery, the result of a QuantisOpen call, the result of a
QuantisReadHandled call (with the bytes deposited in the buffer on
success), or the result of an fwrite call. -/
inductive Event where
  | sig (s : Sig)
  | openR (ok : Bool)
  | readR (ok : Bool) (data : List Nat)
  | writeR (ok : Bool)
deriving DecidableEq, Repr

/-- State of the quantistool work loop (quantistool.c lines 236-262 and
444-494).  `size` is the configured read size (immutable inside the
loop); `tryv` is the `int try = 0` variable declared at line 256, which
the program never increments; `reported` counts statistics emissions by
the report check at lines 462-465; `unitBuf` is the current contents of
the malloc'd buffer; `srcOk` lists the units the source reported as
successfully read, `submitted` the units handed to fwrite, and `output`
the units fwrite accepted. -/
structure St where
  pc : Pc
  done : Bool
  report : Bool
  size : Nat
  opens : Nat
  reads : Nat
  total : Nat
  tryv : Nat
  reported : Nat
  handleOpen : Bool
  unitBuf : List Nat
  srcOk : List (List Nat)
  submitted : List (List Nat)
  output : List (List Nat)
deriving DecidableEq, Repr

/-- The signal handler's effect on the two flags (quantistool.c lines
126-137). -/
def applySig (s : St) : Sig → St
  | Sig.sigpipe => { s with done := true }
  | Sig.sigint => { s with done := true }
  | Sig.sighup => { s with report := true }
  | Sig.other => s

/-- The report check at the top of the inner loop (quantistool.c lines
462-465): if `report` is set, emit one statistics line and clear the
flag; nothing else is touched. -/
def reportCheck (s : St) : St :=
  if s.report then { s with report := false, reported := s.reported + 1 } else s

/-- Leaving the inner loop (after a second read failure at line 472 or a
write failure at line 483): QuantisClose runs (lines 490-492), then the
outer `while (!done)` condition decides between reopening and falling
out of the loop (after which `xc = 0`). -/
def exitInner (s : St) : St :=
  if s.done then { s with handleOpen := false, pc := Pc.terminated }
  else { s with handleOpen := false, pc := Pc.atOpen }

/-- Entering (or re-entering) an inner-loop iteration: the
`while (!done)` condition at line 461, then the report check, then
control is at the first read attempt.  When `done` is observed the inner
loop exits, the handle is closed and the outer condition (also seeing
`done`) falls out of the loop. -/
def innerEntry (s : St) : St :=
  if s.done then { s with handleOpen := false, pc := Pc.terminated }
  else
    let t := reportCheck s
    { t with pc := Pc.atRead1 }

/-- Effect of a successful QuantisReadHandled (quantistool.c lines
466-480): the redundant `rc < QUANTIS_SUCCESS` recheck at line 475 is
dead on this path, then `++reads`, `total += size`, and control is at
the fwrite with the fresh bytes in the buffer. -/
def gotUnit (s : St) (d : List Nat) : St :=
  { s with reads := s.reads + 1, total := s.total + s.size, unitBuf := d,
           srcOk := s.srcOk ++ [d], pc := Pc.atWrite }

/-- One transition of the work loop, consuming one external event.
Events that cannot occur at the current control point leave the state
unchanged. -/
def step (s : St) (e : Event) : St :=
  if s.pc = Pc.terminated then s
  else
    match e with
    | Event.sig sg => applySig s sg
    | Event.openR ok =>
        if s.pc = Pc.atOpen then
          if ok then innerEntry { s with opens := s.opens + 1, handleOpen := true }
          else { s with pc := Pc.terminated }
        else s
    | Event.readR ok d =>
        if s.pc = Pc.atRead1 then
          if ok then gotUnit s d else { s with pc := Pc.atRead2 }
        else if s.pc = Pc.atRead2 then
          if ok then gotUnit s d else exitInner s
        else s
    | Event.writeR ok =>
        if s.pc = Pc.atWrite then
          if ok then
            innerEntry { s with submitted := s.submitted ++ [s.unitBuf],
                                output := s.output ++ [s.unitBuf] }
          else
            exitInner { s with submitted := s.submitted ++ [s.unitBuf] }
        else s

/-- Initial loop state for a configured read size: counters zero, flags
clear, the outer `while (!done)` has just been passed with `done`
false, so control is at the QuantisOpen call. -/
def init (sz : Nat) : St :=
  { pc := Pc.atOpen, done := false, report := false, size := sz,
    opens := 0, reads := 0, total := 0, tryv := 0, reported := 0,
    handleOpen := false, unitBuf := [], srcOk := [], submitted := [], output := [] }

/-- Run the work loop from a state over a list of events. -/
def run (s : St) (es : List Event) : St :=
  es.foldl step s

/-- The single in-flight unit: once a read has succeeded and before its
fwrite completes, the buffer holds one unit not yet handed to the sink. -/
def inflight (s : St) : List (List Nat) :=
  if s.pc = Pc.atWrite then [s.unitBuf] else []

/-- All fwrite outcomes in an event list are successes. -/
def writesOk (es : List Event) : Bool :=
  es.all fun e =>
    match e with
    | Event.writeR ok => ok
    | _ => true

/-- QUANTIS_MAX_READ_SIZE, per the source's own comment (quantistool.c
lines 36-37): the Quantis library restricts reads to no more than
16 megabytes. -/
def QUANTIS_MAX_READ_SIZE : Nat := 16 * 1024 * 1024

/-- Configuration resulting from a successful option parse
(quantistool.c lines 269-331). -/
structure Config where
  dtype : DevType
  unit : Nat
  size : Nat
  check : Bool
  usePath : Bool
  daemonize : Bool
deriving DecidableEq, Repr

/-- Environment outcomes for the setup part of main: whether daemon(3),
malloc, the three sigaction calls and the fopen of the output path
succeed, what the busses hold, and the events driving the work loop. -/
structure MainEnv where
  daemonOk : Bool
  mallocOk : Bool
  sigPipeOk : Bool
  sigHupOk : Bool
  sigIntOk : Bool
  fopenOk : Bool
  bus : Bus
  events : List Event
deriving Repr

/-- Observable outcome of a run of quantistool's main (after option
parsing): the exit code, whether the availability query ran, whether the
read buffer was malloc'd, whether fopen of the configured path was
attempted, whether the work loop was entered, and the loop's final
state when it was. -/
structure MainResult where
  xc : Nat
  queried : Bool
  bufferAllocated : Bool
  fopenTried : Bool
  loopEntered : Bool
  finalS : Option St
deriving Repr

/-- The body of quantistool's main after a successful option parse
(quantistool.c lines 333-498): `xc` starts at 1; daemonize if requested
(failure breaks with xc still 1); run the availability query; when the
query failed and `-c` was given, break (xc still 1); when the size is
zero set `xc = 0` and break before malloc, sigaction and fopen; clamp
the size to QUANTIS_MAX_READ_SIZE; malloc, three sigactions and the
optional fopen each break with xc 1 on failure; otherwise the work loop
runs and afterwards `xc = 0` (line 496). -/
def main (cfg : Config) (env : MainEnv) : MainResult :=
  if cfg.daemonize && !env.daemonOk then
    { xc := 1, queried := false, bufferAllocated := false, fopenTried := false,
      loopEntered := false, finalS := none }
  else if !(query env.bus cfg.dtype cfg.unit) && cfg.check then
    { xc := 1, queried := true, bufferAllocated := false, fopenTried := false,
      loopEntered := false, finalS := none }
  else if cfg.size = 0 then
    { xc := 0, queried := true, bufferAllocated := false, fopenTried := false,
      loopEntered := false, finalS := none }
  else
    let sz := if cfg.size > QUANTIS_MAX_READ_SIZE then QUANTIS_MAX_READ_SIZE else cfg.size
    if !env.mallocOk then
      { xc := 1, queried := true, bufferAllocated := false, fopenTried := false,
        loopEntered := false, finalS := none }
    else if !env.sigPipeOk || !env.sigHupOk || !env.sigIntOk then
      { xc := 1, queried := true, bufferAllocated := true, fopenTried := false,
        loopEntered := false, finalS := none }
    else if cfg.usePath && !env.fopenOk then
      { xc := 1, queried := true, bufferAllocated := true, fopenTried := true,
        loopEntered := false, finalS := none }
    else
      { xc := 0, queried := true, bufferAllocated := true, fopenTried := cfg.usePath,
        loopEntered := true, finalS := some (run (init sz) env.events) }

end Quantistool

namespace Seventool

/-- The instruction-selection mode (seventool.c line 54): `enum mode
\x7b FAIL=0, RDRAND=1, RDSEED=2 \x7d`; the variable defaults to FAIL
(line 153). -/
inductive Mode where
  | fail
  | rdrand
  | rdseed
deriving DecidableEq, Repr

/-- Control points of the work loop at which an external outcome is
consumed: the sampling instruction (lines 317-343, only in RDRAND or
RDSEED mode), the nanosleep backoff (line 346), the fwrite (line 356),
or out of the loop. -/
inductive Pc where
  | atSample
  | atSleep
  | atWrite
  | terminated
deriving DecidableEq, Repr

/-- Signals the handler reacts to (seventool.c lines 94-105). -/
inductive Sig where
  | sigpipe
  | sigint
  | sighup
  | other
deriving DecidableEq, Repr

/-- Outcome of a nanosleep call (seventool.c lines 346-353): returned
at least zero, or failed with errno EINTR, or failed with another
errno. -/
inductive SleepR where
  | ok
  | intr
  | err
deriving DecidableEq, Repr

/-- External events driving the work loop: a signal delivery, the result
of one sampling instruction (the word it left and the carry flag set by
setc), a nanosleep outcome, or an fwrite result. -/
inductive Event where
  | sig (s : Sig)
  | sampleR (w : Nat) (c : Nat)
  | sleepR (r : SleepR)
  | writeR (ok : Bool)
deriving DecidableEq, Repr

/-- The constant 0xDEADC0DE that `word` is initialized to at
seventool.c line 308 (the declaration DEADCODE at line 159). -/
def DEADCODE : Nat := 0xDEADC0DE

/-- The fixed backoff interval (seventool.c lines 305-306):
`request.tv_sec = 0; request.tv_nsec = 1000000;`, one millisecond. -/
def requestTvSec : Nat := 0

/-- The nanoseconds field of the fixed backoff interval. -/
def requestTvNsec : Nat := 1000000

/-- State of the seventool work loop (seventool.c lines 135-364):
`word` and `carry` persist across iterations (initialized at lines
308-309); `tries` is incremented at the top of every iteration (line
316); `reads` and `total` count successful reads; `reported` counts
statistics emissions by the report check at lines 312-315; `srcOk`,
`submitted` and `output` are as in the quantistool model, with units
being 4-byte words. -/
structure St where
  pc : Pc
  done : Bool
  report : Bool
  mode : Mode
  tries : Nat
  reads : Nat
  total : Nat
  reported : Nat
  word : Nat
  carry : Nat
  srcOk : List Nat
  submitted : List Nat
  output : List Nat
deriving DecidableEq, Repr

/-- The signal handler's effect on the two flags (seventool.c lines
94-105). -/
def applySig (s : St) : Sig → St
  | Sig.sigpipe => { s with done := true }
  | Sig.sigint => { s with done := true }
  | Sig.sighup => { s with report := true }
  | Sig.other => s

/-- The report check at the top of the loop (seventool.c lines
312-315). -/
def reportCheck (s : St) : St :=
  if s.report then { s with report := false, reported := s.reported + 1 } else s

/-- The carry check after a sampling attempt (seventool.c lines
344-355): with the carry flag set, `++reads; total += sizeof(word);`
run and control is at the fwrite; with it clear, control is at the
nanosleep. -/
def afterSample (s : St) : St :=
  if s.carry = 0 then { s with pc := Pc.atSleep }
  else
    { s with reads := s.reads + 1, total := s.total + 4,
             srcOk := s.srcOk ++ [s.word], pc := Pc.atWrite }

/-- Entering a loop iteration (seventool.c lines 311-343): the
`while (!done)` condition, the report check, `++tries`, then in RDRAND
or RDSEED mode the sampling instruction runs, while in FAIL mode
nothing samples and `word` and `carry` keep their values, so control
moves directly past the carry check. -/
def loopEntry (s : St) : St :=
  if s.done then { s with pc := Pc.terminated }
  else
    let t := reportCheck s
    let t2 := { t with tries := t.tries + 1 }
    if t2.mode = Mode.fail then afterSample t2 else { t2 with pc := Pc.atSample }

/-- One transition of the work loop, consuming one external event.
Events that cannot occur at the current control point leave the state
unchanged. -/
def step (s : St) (e : Event) : St :=
  if s.pc = Pc.terminated then s
  else
    match e with
    | Event.sig sg => applySig s sg
    | Event.sampleR w c =>
        if s.pc = Pc.atSample then afterSample { s with word := w, carry := c }
        else s
    | Event.sleepR r =>
        if s.pc = Pc.atSleep then
          match r with
          | SleepR.ok => loopEntry s
          | SleepR.intr => loopEntry s
          | SleepR.err => { s with pc := Pc.terminated }
        else s
    | Event.writeR ok =>
        if s.pc = Pc.atWrite then
          if ok then
            loopEntry { s with submitted := s.submitted ++ [s.word],
                               output := s.output ++ [s.word] }
          else
            { s with submitted := s.submitted ++ [s.word], pc := Pc.terminated }
        else s

/-- The state just before the loop's first iteration (seventool.c lines
305-311): counters zero, flags clear, `word = DEADCODE`, `carry = 1`. -/
def pre (m : Mode) : St :=
  { pc := Pc.terminated, done := false, report := false, mode := m,
    tries := 0, reads := 0, total := 0, reported := 0,
    word := DEADCODE, carry := 1, srcOk := [], submitted := [], output := [] }

/-- Initial loop state: the first iteration has been entered (first
`while (!done)` check passed with `done` false). -/
def init (m : Mode) : St :=
  loopEntry (pre m)

/-- Run the work loop from a state over a list of events. -/
def run (s : St) (es : List Event) : St :=
  es.foldl step s

/-- The single in-flight word. -/
def inflight (s : St) : List Nat :=
  if s.pc = Pc.atWrite then [s.word] else []

/-- All fwrite outcomes in an event list are successes. -/
def writesOk (es : List Event) : Bool :=
  es.all fun e =>
    match e with
    | Event.writeR ok => ok
    | _ => true

end Seventool

/-- Preservation of a predicate along a `List.foldl`. -/
theorem foldl_preserves {σ ε : Type} (f : σ → ε → σ) (P : σ → Prop)
    (h : ∀ s e, P s → P (f s e)) :
    ∀ (es : List ε) (s : σ), P s → P (es.foldl f s) := by
  intro es
  induction es with
  | nil => intro s hs; exact hs
  | cons e rest ih => intro s hs; exact ih (f s e) (h s e hs)

namespace Quantistool

@[simp] theorem applySig_pc (s : St) (sg : Sig) : (applySig s sg).pc = s.pc := by
  cases sg <;> rfl

@[simp] theorem applySig_srcOk (s : St) (sg : Sig) : (applySig s sg).srcOk = s.srcOk := by
  cases sg <;> rfl

@[simp] theorem applySig_submitted (s : St) (sg : Sig) :
    (applySig s sg).submitted = s.submitted := by
  cases sg <;> rfl

@[simp] theorem applySig_output (s : St) (sg : Sig) : (applySig s sg).output = s.output := by
  cases sg <;> rfl

@[simp] theorem applySig_unitBuf (s : St) (sg : Sig) : (applySig s sg).unitBuf = s.unitBuf := by
  cases sg <;> rfl

@[simp] theorem applySig_reads (s : St) (sg : Sig) : (applySig s sg).reads = s.reads := by
  cases sg <;> rfl

@[simp] theorem applySig_total (s : St) (sg : Sig) : (applySig s sg).total = s.total := by
  cases sg <;> rfl

@[simp] theorem applySig_size (s : St) (sg : Sig) : (applySig s sg).size = s.size := by
  cases sg <;> rfl

@[simp] theorem applySig_opens (s : St) (sg : Sig) : (applySig s sg).opens = s.opens := by
  cases sg <;> rfl

@[simp] theorem applySig_tryv (s : St) (sg : Sig) : (applySig s sg).tryv = s.tryv := by
  cases sg <;> rfl

@[simp] theorem applySig_handleOpen (s : St) (sg : Sig) :
    (applySig s sg).handleOpen = s.handleOpen := by
  cases sg <;> rfl

@[simp] theorem applySig_reported (s : St) (sg : Sig) :
    (applySig s sg).reported = s.reported := by
  cases sg <;> rfl

@[simp] theorem reportCheck_pc (s : St) : (reportCheck s).pc = s.pc := by
  unfold reportCheck; split <;> rfl

@[simp] theorem reportCheck_srcOk (s : St) : (reportCheck s).srcOk = s.srcOk := by
  unfold reportCheck; split <;> rfl

@[simp] theorem reportCheck_submitted (s : St) : (reportCheck s).submitted = s.submitted := by
  unfold reportCheck; split <;> rfl

@[simp] theorem reportCheck_output (s : St) : (reportCheck s).output = s.output := by
  unfold reportCheck; split <;> rfl

@[simp] theorem reportCheck_unitBuf (s : St) : (reportCheck s).unitBuf = s.unitBuf := by
  unfold reportCheck; split <;> rfl

@[simp] theorem reportCheck_reads (s : St) : (reportCheck s).reads = s.reads := by
  unfold reportCheck; split <;> rfl

@[simp] theorem reportCheck_total (s : St) : (reportCheck s).total = s.total := by
  unfold reportCheck; split <;> rfl

@[simp] theorem reportCheck_size (s : St) : (reportCheck s).size = s.size := by
  unfold reportCheck; split <;> rfl

@[simp] theorem reportCheck_opens (s : St) : (reportCheck s).opens = s.opens := by
  unfold reportCheck; split <;> rfl

@[simp] theorem reportCheck_tryv (s : St) : (reportCheck s).tryv = s.tryv := by
  unfold reportCheck; split <;> rfl

@[simp] theorem reportCheck_done (s : St) : (reportCheck s).done = s.done := by
  unfold reportCheck; split <;> rfl

@[simp] theorem reportCheck_handleOpen (s : St) : (reportCheck s).handleOpen = s.handleOpen := by
  unfold reportCheck; split <;> rfl

@[simp] theorem innerEntry_srcOk (s : St) : (innerEntry s).srcOk = s.srcOk := by
  unfold innerEntry; split <;> simp

@[simp] theorem innerEntry_submitted (s : St) : (innerEntry s).submitted = s.submitted := by
  unfold innerEntry; split <;> simp

@[simp] theorem innerEntry_output (s : St) : (innerEntry s).output = s.output := by
  unfold innerEntry; split <;> simp

@[simp] theorem innerEntry_unitBuf (s : St) : (innerEntry s).unitBuf = s.unitBuf := by
  unfold innerEntry; split <;> simp

@[simp] theorem innerEntry_reads (s : St) : (innerEntry s).reads = s.reads := by
  unfold innerEntry; split <;> simp

@[simp] theorem innerEntry_total (s : St) : (innerEntry s).total = s.total := by
  unfold innerEntry; split <;> simp

@[simp] theorem innerEntry_size (s : St) : (innerEntry s).size = s.size := by
  unfold innerEntry; split <;> simp

@[simp] theorem innerEntry_opens (s : St) : (innerEntry s).opens = s.opens := by
  unfold innerEntry; split <;> simp

@[simp] theorem innerEntry_tryv (s : St) : (innerEntry s).tryv = s.tryv := by
  unfold innerEntry; split <;> simp

@[simp] theorem innerEntry_done (s : St) : (innerEntry s).done = s.done := by
  unfold innerEntry; split <;> simp

@[simp] theorem innerEntry_pc (s : St) :
    (innerEntry s).pc = if s.done then Pc.terminated else Pc.atRead1 := by
  unfold innerEntry; split <;> simp_all

@[simp] theorem exitInner_srcOk (s : St) : (exitInner s).srcOk = s.srcOk := by
  unfold exitInner; split <;> rfl

@[simp] theorem exitInner_submitted (s : St) : (exitInner s).submitted = s.submitted := by
  unfold exitInner; split <;> rfl

@[simp] theorem exitInner_output (s : St) : (exitInner s).output = s.output := by
  unfold exitInner; split <;> rfl

@[simp] theorem exitInner_unitBuf (s : St) : (exitInner s).unitBuf = s.unitBuf := by
  unfold exitInner; split <;> rfl

@[simp] theorem exitInner_reads (s : St) : (exitInner s).reads = s.reads := by
  unfold exitInner; split <;> rfl

@[simp] theorem exitInner_total (s : St) : (exitInner s).total = s.total := by
  unfold exitInner; split <;> rfl

@[simp] theorem exitInner_size (s : St) : (exitInner s).size = s.size := by
  unfold exitInner; split <;> rfl

@[simp] theorem exitInner_opens (s : St) : (exitInner s).opens = s.opens := by
  unfold exitInner; split <;> rfl

@[simp] theorem exitInner_tryv (s : St) : (exitInner s).tryv = s.tryv := by
  unfold exitInner; split <;> rfl

@[simp] theorem exitInner_done (s : St) : (exitInner s).done = s.done := by
  unfold exitInner; split <;> rfl

@[simp] theorem exitInner_reported (s : St) : (exitInner s).reported = s.reported := by
  unfold exitInner; split <;> rfl

@[simp] theorem exitInner_handleOpen (s : St) : (exitInner s).handleOpen = false := by
  unfold exitInner; split <;> rfl

@[simp] theorem exitInner_pc (s : St) :
    (exitInner s).pc = if s.done then Pc.terminated else Pc.atOpen := by
  unfold exitInner; split <;> simp_all

@[simp] theorem gotUnit_srcOk (s : St) (d : List Nat) :
    (gotUnit s d).srcOk = s.srcOk ++ [d] := rfl

@[simp] theorem gotUnit_submitted (s : St) (d : List Nat) :
    (gotUnit s d).submitted = s.submitted := rfl

@[simp] theorem gotUnit_output (s : St) (d : List Nat) :
    (gotUnit s d).output = s.output := rfl

@[simp] theorem gotUnit_unitBuf (s : St) (d : List Nat) :
    (gotUnit s d).unitBuf = d := rfl

@[simp] theorem gotUnit_reads (s : St) (d : List Nat) :
    (gotUnit s d).reads = s.reads + 1 := rfl

@[simp] theorem gotUnit_total (s : St) (d : List Nat) :
    (gotUnit s d).total = s.total + s.size := rfl

@[simp] theorem gotUnit_size (s : St) (d : List Nat) : (gotUnit s d).size = s.size := rfl

@[simp] theorem gotUnit_opens (s : St) (d : List Nat) : (gotUnit s d).opens = s.opens := rfl

@[simp] theorem gotUnit_tryv (s : St) (d : List Nat) : (gotUnit s d).tryv = s.tryv := rfl

@[simp] theorem gotUnit_done (s : St) (d : List Nat) : (gotUnit s d).done = s.done := rfl

@[simp] theorem gotUnit_handleOpen (s : St) (d : List Nat) :
    (gotUnit s d).handleOpen = s.handleOpen := rfl

@[simp] theorem gotUnit_pc (s : St) (d : List Nat) : (gotUnit s d).pc = Pc.atWrite := rfl

theorem step_sig (s : St) (sg : Sig) :
    step s (Event.sig sg) = if s.pc = Pc.terminated then s else applySig s sg := rfl

theorem step_openR (s : St) (ok : Bool) :
    step s (Event.openR ok) =
      if s.pc = Pc.terminated then s
      else if s.pc = Pc.atOpen then
        if ok then innerEntry { s with opens := s.opens + 1, handleOpen := true }
        else { s with pc := Pc.terminated }
      else s := rfl

theorem step_readR (s : St) (ok : Bool) (d : List Nat) :
    step s (Event.readR ok d) =
      if s.pc = Pc.terminated then s
      else if s.pc = Pc.atRead1 then
        if ok then gotUnit s d else { s with pc := Pc.atRead2 }
      else if s.pc = Pc.atRead2 then
        if ok then gotUnit s d else exitInner s
      else s := rfl

theorem step_writeR (s : St) (ok : Bool) :
    step s (Event.writeR ok) =
      if s.pc = Pc.terminated then s
      else if s.pc = Pc.atWrite then
        if ok then
          innerEntry { s with submitted := s.submitted ++ [s.unitBuf],
                              output := s.output ++ [s.unitBuf] }
        else
          exitInner { s with submitted := s.submitted ++ [s.unitBuf] }
      else s := rfl

/-- The safety invariant of the quantistool work loop: the successfully
read units are exactly the units handed to fwrite followed by the at
most one in-flight unit; the units fwrite accepted form a sublist of
the units handed to it; the byte total is the read count times the
configured size; the read counter equals the number of successful
reads. -/
def Inv (s : St) : Prop :=
  s.srcOk = s.submitted ++ inflight s ∧
  s.output.Sublist s.submitted ∧
  s.total = s.reads * s.size ∧
  s.reads = s.srcOk.length

theorem qInv_step (s : St) (e : Event) (h : Inv s) : Inv (step s e) := by
  obtain ⟨h1, h2, h3, h4⟩ := h
  by_cases hterm : s.pc = Pc.terminated
  · cases e <;>
      simp only [step_sig, step_openR, step_readR, step_writeR, if_pos hterm] <;>
      exact ⟨h1, h2, h3, h4⟩
  cases e with
  | sig sg =>
      rw [step_sig, if_neg hterm]
      refine ⟨?_, ?_, ?_, ?_⟩
      · simp only [inflight, applySig_srcOk, applySig_submitted, applySig_unitBuf,
                   applySig_pc]
        simpa [inflight] using h1
      · simpa using h2
      · simpa using h3
      · simpa using h4
  | openR ok =>
      rw [step_openR, if_neg hterm]
      by_cases hpc : s.pc = Pc.atOpen
      · unfold inflight at h1
        rw [hpc] at h1
        simp at h1
        rw [if_pos hpc]
        cases ok with
        | true =>
            simp only [reduceIte]
            unfold Inv inflight
            by_cases hd : s.done = true <;> simp [hd, h1, h2, h3, h4]
        | false =>
            simp only [Bool.false_eq_true, reduceIte]
            unfold Inv inflight
            simp [h1, h2, h3, h4]
      · rw [if_neg hpc]
        exact ⟨h1, h2, h3, h4⟩
  | readR ok d =>
      rw [step_readR, if_neg hterm]
      by_cases hpc : s.pc = Pc.atRead1
      · unfold inflight at h1
        rw [hpc] at h1
        simp at h1
        rw [if_pos hpc]
        cases ok with
        | true =>
            simp only [reduceIte]
            unfold Inv inflight
            simp [h1, h2, h3, h4, Nat.succ_mul]
        | false =>
            simp only [Bool.false_eq_true, reduceIte]
            unfold Inv inflight
            simp [h1, h2, h3, h4]
      · by_cases hpc2 : s.pc = Pc.atRead2
        · unfold inflight at h1
          rw [hpc2] at h1
          simp at h1
          rw [if_neg hpc, if_pos hpc2]
          cases ok with
          | true =>
              simp only [reduceIte]
              unfold Inv inflight
              simp [h1, h2, h3, h4, Nat.succ_mul]
          | false =>
              simp only [Bool.false_eq_true, reduceIte]
              unfold Inv inflight
              by_cases hd : s.done = true <;> simp [hd, h1, h2, h3, h4]
        · rw [if_neg hpc, if_neg hpc2]
          exact ⟨h1, h2, h3, h4⟩
  | writeR ok =>
      rw [step_writeR, if_neg hterm]
      by_cases hpc : s.pc = Pc.atWrite
      · unfold inflight at h1
        rw [hpc] at h1
        simp at h1
        rw [if_pos hpc]
        cases ok with
        | true =>
            simp only [reduceIte]
            unfold Inv inflight
            by_cases hd : s.done = true <;>
              simp [hd, h1, h3, h4, List.Sublist.append h2 (List.Sublist.refl [s.unitBuf])]
        | false =>
            simp only [Bool.false_eq_true, reduceIte]
            unfold Inv inflight
            by_cases hd : s.done = true <;>
              simp [hd, h1, h3, h4,
                    h2.trans (List.sublist_append_left s.submitted [s.unitBuf])]
      · rw [if_neg hpc]
        exact ⟨h1, h2, h3, h4⟩

theorem qInv_init (sz : Nat) : Inv (init sz) := by
  refine ⟨rfl, List.Sublist.refl [], by simp [init], rfl⟩

theorem qInv_run (sz : Nat) (es : List Event) : Inv (run (init sz) es) :=
  foldl_preserves step Inv qInv_step es (init sz) (qInv_init sz)

end Quantistool

namespace Seventool

@[simp] theorem sApplySig_pc (s : St) (sg : Sig) : (applySig s sg).pc = s.pc := by
  cases sg <;> rfl

@[simp] theorem sApplySig_mode (s : St) (sg : Sig) : (applySig s sg).mode = s.mode := by
  cases sg <;> rfl

@[simp] theorem sApplySig_srcOk (s : St) (sg : Sig) : (applySig s sg).srcOk = s.srcOk := by
  cases sg <;> rfl

@[simp] theorem sApplySig_submitted (s : St) (sg : Sig) :
    (applySig s sg).submitted = s.submitted := by
  cases sg <;> rfl

@[simp] theorem sApplySig_output (s : St) (sg : Sig) : (applySig s sg).output = s.output := by
  cases sg <;> rfl

@[simp] theorem sApplySig_word (s : St) (sg : Sig) : (applySig s sg).word = s.word := by
  cases sg <;> rfl

@[simp] theorem sApplySig_carry (s : St) (sg : Sig) : (applySig s sg).carry = s.carry := by
  cases sg <;> rfl

@[simp] theorem sApplySig_tries (s : St) (sg : Sig) : (applySig s sg).tries = s.tries := by
  cases sg <;> rfl

@[simp] theorem sApplySig_reads (s : St) (sg : Sig) : (applySig s sg).reads = s.reads := by
  cases sg <;> rfl

@[simp] theorem sApplySig_total (s : St) (sg : Sig) : (applySig s sg).total = s.total := by
  cases sg <;> rfl

@[simp] theorem sApplySig_reported (s : St) (sg : Sig) :
    (applySig s sg).reported = s.reported := by
  cases sg <;> rfl

@[simp] theorem sReportCheck_pc (s : St) : (reportCheck s).pc = s.pc := by
  unfold reportCheck; split <;> rfl

@[simp] theorem sReportCheck_mode (s : St) : (reportCheck s).mode = s.mode := by
  unfold reportCheck; split <;> rfl

@[simp] theorem sReportCheck_done (s : St) : (reportCheck s).done = s.done := by
  unfold reportCheck; split <;> rfl

@[simp] theorem sReportCheck_srcOk (s : St) : (reportCheck s).srcOk = s.srcOk := by
  unfold reportCheck; split <;> rfl

@[simp] theorem sReportCheck_submitted (s : St) : (reportCheck s).submitted = s.submitted := by
  unfold reportCheck; split <;> rfl

@[simp] theorem sReportCheck_output (s : St) : (reportCheck s).output = s.output := by
  unfold reportCheck; split <;> rfl

@[simp] theorem sReportCheck_word (s : St) : (reportCheck s).word = s.word := by
  unfold reportCheck; split <;> rfl

@[simp] theorem sReportCheck_carry (s : St) : (reportCheck s).carry = s.carry := by
  unfold reportCheck; split <;> rfl

@[simp] theorem sReportCheck_tries (s : St) : (reportCheck s).tries = s.tries := by
  unfold reportCheck; split <;> rfl

@[simp] theorem sReportCheck_reads (s : St) : (reportCheck s).reads = s.reads := by
  unfold reportCheck; split <;> rfl

@[simp] theorem sReportCheck_total (s : St) : (reportCheck s).total = s.total := by
  unfold reportCheck; split <;> rfl

theorem afterSample_zero (s : St) (h : s.carry = 0) :
    afterSample s = { s with pc := Pc.atSleep } := by
  unfold afterSample
  rw [if_pos h]

theorem afterSample_pos (s : St) (h : ¬ s.carry = 0) :
    afterSample s = { s with reads := s.reads + 1, total := s.total + 4,
                             srcOk := s.srcOk ++ [s.word], pc := Pc.atWrite } := by
  unfold afterSample
  rw [if_neg h]

theorem loopEntry_done (s : St) (h : s.done = true) :
    loopEntry s = { s with pc := Pc.terminated } := by
  unfold loopEntry
  rw [if_pos h]

theorem loopEntry_not_done_fail (s : St) (h : s.done = false) (hm : s.mode = Mode.fail) :
    loopEntry s = afterSample { reportCheck s with tries := s.tries + 1 } := by
  unfold loopEntry
  rw [if_neg (by rw [h]; exact Bool.false_ne_true)]
  have hc : ({ reportCheck s with tries := (reportCheck s).tries + 1 } : St).mode
      = Mode.fail := by
    simpa using hm
  rw [if_pos hc]
  simp

theorem loopEntry_not_done_sample (s : St) (h : s.done = false) (hm : ¬ s.mode = Mode.fail) :
    loopEntry s = { reportCheck s with tries := s.tries + 1, pc := Pc.atSample } := by
  unfold loopEntry
  rw [if_neg (by rw [h]; exact Bool.false_ne_true)]
  have hc : ¬ ({ reportCheck s with tries := (reportCheck s).tries + 1 } : St).mode
      = Mode.fail := by
    simpa using hm
  rw [if_neg hc]
  simp

theorem sstep_sig (s : St) (sg : Sig) :
    step s (Event.sig sg) = if s.pc = Pc.terminated then s else applySig s sg := rfl

theorem sstep_sampleR (s : St) (w c : Nat) :
    step s (Event.sampleR w c) =
      if s.pc = Pc.terminated then s
      else if s.pc = Pc.atSample then afterSample { s with word := w, carry := c }
      else s := rfl

theorem sstep_sleepR (s : St) (r : SleepR) :
    step s (Event.sleepR r) =
      if s.pc = Pc.terminated then s
      else if s.pc = Pc.atSleep then
        match r with
        | SleepR.ok => loopEntry s
        | SleepR.intr => loopEntry s
        | SleepR.err => { s with pc := Pc.terminated }
      else s := rfl

theorem sstep_writeR (s : St) (ok : Bool) :
    step s (Event.writeR ok) =
      if s.pc = Pc.terminated then s
      else if s.pc = Pc.atWrite then
        if ok then
          loopEntry { s with submitted := s.submitted ++ [s.word],
                             output := s.output ++ [s.word] }
        else
          { s with submitted := s.submitted ++ [s.word], pc := Pc.terminated }
      else s := rfl

/-- The safety invariant of the seventool work loop, the analogue of the
quantistool invariant: successfully read words are the submitted words
plus the at most one in-flight word, accepted words form a sublist of
submitted words, the byte total is four bytes per successful read, and
the read counter counts the successful reads. -/
def Inv (s : St) : Prop :=
  s.srcOk = s.submitted ++ inflight s ∧
  s.output.Sublist s.submitted ∧
  s.total = s.reads * 4 ∧
  s.reads = s.srcOk.length

theorem sInv_afterSample (s : St) (h1 : s.srcOk = s.submitted)
    (h2 : s.output.Sublist s.submitted) (h3 : s.total = s.reads * 4)
    (h4 : s.reads = s.srcOk.length) : Inv (afterSample s) := by
  by_cases hc : s.carry = 0
  · rw [afterSample_zero s hc]
    unfold Inv inflight
    simp [h1, h2, h3, h4]
  · rw [afterSample_pos s hc]
    unfold Inv inflight
    simp [h1, h2, h3, h4, Nat.succ_mul]

theorem sInv_loopEntry (s : St) (h1 : s.srcOk = s.submitted)
    (h2 : s.output.Sublist s.submitted) (h3 : s.total = s.reads * 4)
    (h4 : s.reads = s.srcOk.length) : Inv (loopEntry s) := by
  by_cases hd : s.done = true
  · rw [loopEntry_done s hd]
    unfold Inv inflight
    simp [h1, h2, h3, h4]
  · rw [Bool.not_eq_true] at hd
    by_cases hm : s.mode = Mode.fail
    · rw [loopEntry_not_done_fail s hd hm]
      exact sInv_afterSample _ (by simp [h1]) (by simpa using h2) (by simp [h3])
        (by simp [h4])
    · rw [loopEntry_not_done_sample s hd hm]
      unfold Inv inflight
      simp [h1, h2, h3, h4]

theorem sInv_step (s : St) (e : Event) (h : Inv s) : Inv (step s e) := by
  obtain ⟨h1, h2, h3, h4⟩ := h
  by_cases hterm : s.pc = Pc.terminated
  · cases e <;>
      simp only [sstep_sig, sstep_sampleR, sstep_sleepR, sstep_writeR, if_pos hterm] <;>
      exact ⟨h1, h2, h3, h4⟩
  cases e with
  | sig sg =>
      rw [sstep_sig, if_neg hterm]
      refine ⟨?_, ?_, ?_, ?_⟩
      · simp only [inflight, sApplySig_srcOk, sApplySig_submitted, sApplySig_word,
                   sApplySig_pc]
        simpa [inflight] using h1
      · simpa using h2
      · simpa using h3
      · simpa using h4
  | sampleR w c =>
      rw [sstep_sampleR, if_neg hterm]
      by_cases hpc : s.pc = Pc.atSample
      · unfold inflight at h1
        rw [hpc] at h1
        simp at h1
        rw [if_pos hpc]
        exact sInv_afterSample _ (by simpa using h1) (by simpa using h2)
          (by simpa using h3) (by simpa using h4)
      · rw [if_neg hpc]
        exact ⟨h1, h2, h3, h4⟩
  | sleepR r =>
      rw [sstep_sleepR, if_neg hterm]
      by_cases hpc : s.pc = Pc.atSleep
      · unfold inflight at h1
        rw [hpc] at h1
        simp at h1
        rw [if_pos hpc]
        cases r with
        | ok => exact sInv_loopEntry s h1 h2 h3 h4
        | intr => exact sInv_loopEntry s h1 h2 h3 h4
        | err =>
            unfold Inv inflight
            simp [h1, h2, h3, h4]
      · rw [if_neg hpc]
        exact ⟨h1, h2, h3, h4⟩
  | writeR ok =>
      rw [sstep_writeR, if_neg hterm]
      by_cases hpc : s.pc = Pc.atWrite
      · unfold inflight at h1
        rw [hpc] at h1
        simp at h1
        rw [if_pos hpc]
        cases ok with
        | true =>
            simp only [reduceIte]
            refine sInv_loopEntry _ (by simpa using h1) ?_ (by simpa using h3)
              (by simpa using h4)
            simpa using List.Sublist.append h2 (List.Sublist.refl [s.word])
        | false =>
            simp only [Bool.false_eq_true, reduceIte]
            unfold Inv inflight
            simp [h1, h3, h4,
                  h2.trans (List.sublist_append_left s.submitted [s.word])]
      · rw [if_neg hpc]
        exact ⟨h1, h2, h3, h4⟩

theorem sInv_init (m : Mode) : Inv (init m) := by
  have hb : (pre m).srcOk = (pre m).submitted := rfl
  exact sInv_loopEntry (pre m) rfl (List.Sublist.refl []) (by simp [pre]) rfl

theorem sInv_run (m : Mode) (es : List Event) : Inv (run (init m) es) :=
  foldl_preserves step Inv sInv_step es (init m) (sInv_init m)

end Seventool

namespace Quantistool

theorem qrun_nil (s : St) : run s [] = s := rfl

theorem qrun_cons (s : St) (e : Event) (es : List Event) :
    run s (e :: es) = run (step s e) es := rfl

theorem qstep_terminated (s : St) (e : Event) (h : s.pc = Pc.terminated) :
    step s e = s := by
  cases e <;>
    simp only [step_sig, step_openR, step_readR, step_writeR, if_pos h]

theorem qrun_terminated (es : List Event) (s : St) (h : s.pc = Pc.terminated) :
    run s es = s := by
  induction es with
  | nil => rfl
  | cons e rest ih =>
      rw [qrun_cons, qstep_terminated s e h]
      exact ih

theorem q_outsub_step (s : St) (e : Event) (he : ∀ b, e = Event.writeR b → b = true)
    (h : s.output = s.submitted) : (step s e).output = (step s e).submitted := by
  by_cases hterm : s.pc = Pc.terminated
  · rw [qstep_terminated s e hterm]
    exact h
  cases e with
  | sig sg =>
      rw [step_sig, if_neg hterm]
      simpa using h
  | openR ok =>
      rw [step_openR, if_neg hterm]
      by_cases hpc : s.pc = Pc.atOpen
      · rw [if_pos hpc]
        cases ok <;> simpa using h
      · rw [if_neg hpc]
        exact h
  | readR ok d =>
      rw [step_readR, if_neg hterm]
      by_cases hpc : s.pc = Pc.atRead1
      · rw [if_pos hpc]
        cases ok <;> simpa using h
      · by_cases hpc2 : s.pc = Pc.atRead2
        · rw [if_neg hpc, if_pos hpc2]
          cases ok <;> simpa using h
        · rw [if_neg hpc, if_neg hpc2]
          exact h
  | writeR ok =>
      have hok : ok = true := he ok rfl
      subst hok
      rw [step_writeR, if_neg hterm]
      by_cases hpc : s.pc = Pc.atWrite
      · rw [if_pos hpc]
        simp [h]
      · rw [if_neg hpc]
        exact h

theorem q_outsub_run : ∀ (es : List Event) (s : St), writesOk es = true →
    s.output = s.submitted → (run s es).output = (run s es).submitted := by
  intro es
  induction es with
  | nil => intro s _ h; exact h
  | cons e rest ih =>
      intro s hok h
      unfold writesOk at hok
      rw [List.all_cons, Bool.and_eq_true] at hok
      rw [qrun_cons]
      refine ih (step s e) hok.2 ?_
      refine q_outsub_step s e ?_ h
      intro b hb
      subst hb
      exact hok.1

end Quantistool

namespace Seventool

theorem srun_nil (s : St) : run s [] = s := rfl

theorem srun_cons (s : St) (e : Event) (es : List Event) :
    run s (e :: es) = run (step s e) es := rfl

theorem sstep_terminated (s : St) (e : Event) (h : s.pc = Pc.terminated) :
    step s e = s := by
  cases e <;>
    simp only [sstep_sig, sstep_sampleR, sstep_sleepR, sstep_writeR, if_pos h]

theorem srun_terminated (es : List Event) (s : St) (h : s.pc = Pc.terminated) :
    run s es = s := by
  induction es with
  | nil => rfl
  | cons e rest ih =>
      rw [srun_cons, sstep_terminated s e h]
      exact ih

theorem s_outsub_loopEntry (s : St) (h : s.output = s.submitted) :
    (loopEntry s).output = (loopEntry s).submitted := by
  by_cases hd : s.done = true
  · rw [loopEntry_done s hd]
    exact h
  · rw [Bool.not_eq_true] at hd
    by_cases hm : s.mode = Mode.fail
    · rw [loopEntry_not_done_fail s hd hm]
      by_cases hc : (({ reportCheck s with tries := s.tries + 1 } : St)).carry = 0
      · rw [afterSample_zero _ hc]
        simpa using h
      · rw [afterSample_pos _ hc]
        simpa using h
    · rw [loopEntry_not_done_sample s hd hm]
      simpa using h

theorem s_outsub_step (s : St) (e : Event) (he : ∀ b, e = Event.writeR b → b = true)
    (h : s.output = s.submitted) : (step s e).output = (step s e).submitted := by
  by_cases hterm : s.pc = Pc.terminated
  · rw [sstep_terminated s e hterm]
    exact h
  cases e with
  | sig sg =>
      rw [sstep_sig, if_neg hterm]
      simpa using h
  | sampleR w c =>
      rw [sstep_sampleR, if_neg hterm]
      by_cases hpc : s.pc = Pc.atSample
      · rw [if_pos hpc]
        by_cases hc : (({ s with word := w, carry := c } : St)).carry = 0
        · rw [afterSample_zero _ hc]
          simpa using h
        · rw [afterSample_pos _ hc]
          simpa using h
      · rw [if_neg hpc]
        exact h
  | sleepR r =>
      rw [sstep_sleepR, if_neg hterm]
      by_cases hpc : s.pc = Pc.atSleep
      · rw [if_pos hpc]
        cases r with
        | ok => exact s_outsub_loopEntry s h
        | intr => exact s_outsub_loopEntry s h
        | err => simpa using h
      · rw [if_neg hpc]
        exact h
  | writeR ok =>
      have hok : ok = true := he ok rfl
      subst hok
      rw [sstep_writeR, if_neg hterm]
      by_cases hpc : s.pc = Pc.atWrite
      · rw [if_pos hpc]
        simp only [reduceIte]
        refine s_outsub_loopEntry _ ?_
        simpa using congrArg (fun l => l ++ [s.word]) h
      · rw [if_neg hpc]
        exact h

theorem s_outsub_run : ∀ (es : List Event) (s : St), writesOk es = true →
    s.output = s.submitted → (run s es).output = (run s es).submitted := by
  intro es
  induction es with
  | nil => intro s _ h; exact h
  | cons e rest ih =>
      intro s hok h
      unfold writesOk at hok
      rw [List.all_cons, Bool.and_eq_true] at hok
      rw [srun_cons]
      refine ih (step s e) hok.2 ?_
      refine s_outsub_step s e ?_ h
      intro b hb
      subst hb
      exact hok.1

/-- The invariant of a FAIL-mode (default-mode) run of seventool: the
sampling point is never reached, `carry` keeps its initial value 1 and
`word` its initial value DEADCODE, the successfully read words are all
DEADCODE (one per iteration, so `tries = reads`), and every word in the
output is DEADCODE. -/
def FailInv (s : St) : Prop :=
  s.mode = Mode.fail ∧ s.carry = 1 ∧ s.word = DEADCODE ∧ s.pc ≠ Pc.atSample ∧
  s.output = List.replicate s.output.length DEADCODE ∧
  s.srcOk = List.replicate s.reads DEADCODE ∧
  s.tries = s.reads

theorem failInv_loopEntry (s : St) (h : FailInv s) : FailInv (loopEntry s) := by
  obtain ⟨hm, hc, hw, hpc, hout, hsrc, htr⟩ := h
  by_cases hd : s.done = true
  · rw [loopEntry_done s hd]
    exact ⟨hm, hc, hw, by simp, hout, hsrc, htr⟩
  · rw [Bool.not_eq_true] at hd
    rw [loopEntry_not_done_fail s hd hm]
    have hcz : ¬ (({ reportCheck s with tries := s.tries + 1 } : St)).carry = 0 := by
      simp [hc]
    rw [afterSample_pos _ hcz]
    refine ⟨by simpa using hm, by simpa using hc, by simpa using hw, by simp, ?_, ?_, ?_⟩
    · simpa using hout
    · simp only [sReportCheck_srcOk, sReportCheck_word, sReportCheck_reads]
      rw [hsrc, hw, List.replicate_succ']
    · simp [htr]

theorem failInv_step (s : St) (e : Event) (h : FailInv s) : FailInv (step s e) := by
  by_cases hterm : s.pc = Pc.terminated
  · rw [sstep_terminated s e hterm]
    exact h
  obtain ⟨hm, hc, hw, hpc, hout, hsrc, htr⟩ := h
  cases e with
  | sig sg =>
      rw [sstep_sig, if_neg hterm]
      exact ⟨by simpa using hm, by simpa using hc, by simpa using hw,
             by simpa using hpc, by simpa using hout, by simpa using hsrc,
             by simpa using htr⟩
  | sampleR w c =>
      rw [sstep_sampleR, if_neg hterm, if_neg hpc]
      exact ⟨hm, hc, hw, hpc, hout, hsrc, htr⟩
  | sleepR r =>
      rw [sstep_sleepR, if_neg hterm]
      by_cases hsl : s.pc = Pc.atSleep
      · rw [if_pos hsl]
        cases r with
        | ok => exact failInv_loopEntry s ⟨hm, hc, hw, hpc, hout, hsrc, htr⟩
        | intr => exact failInv_loopEntry s ⟨hm, hc, hw, hpc, hout, hsrc, htr⟩
        | err => exact ⟨hm, hc, hw, by simp, hout, hsrc, htr⟩
      · rw [if_neg hsl]
        exact ⟨hm, hc, hw, hpc, hout, hsrc, htr⟩
  | writeR ok =>
      rw [sstep_writeR, if_neg hterm]
      by_cases hwr : s.pc = Pc.atWrite
      · rw [if_pos hwr]
        cases ok with
        | true =>
            simp only [reduceIte]
            refine failInv_loopEntry _ ⟨hm, hc, hw, hpc, ?_, hsrc, htr⟩
            show s.output ++ [s.word]
              = List.replicate (s.output ++ [s.word]).length DEADCODE
            rw [hw, hout]
            simp [List.replicate_succ']
        | false =>
            simp only [Bool.false_eq_true, reduceIte]
            exact ⟨hm, hc, hw, by simp, hout, hsrc, htr⟩
      · rw [if_neg hwr]
        exact ⟨hm, hc, hw, hpc, hout, hsrc, htr⟩

theorem failInv_init : FailInv (init Mode.fail) := by
  refine ⟨rfl, rfl, rfl, by decide, rfl, rfl, rfl⟩

theorem failInv_run (es : List Event) : FailInv (run (init Mode.fail) es) :=
  foldl_preserves step FailInv failInv_step es (init Mode.fail) failInv_init

end Seventool

namespace Quantistool

theorem queryScan_ne (want t : DevType) (unit : Nat) (h : ¬ want = t) :
    ∀ (l : List DeviceInfo) (j : Nat), queryScan want t unit l j = false := by
  intro l
  induction l with
  | nil => intro j; rfl
  | cons d rest ih =>
      intro j
      unfold queryScan
      rw [ih (j + 1)]
      simp [h]

theorem queryScan_same (t : DevType) (unit : Nat) :
    ∀ (l : List DeviceInfo) (j : Nat),
      queryScan t t unit l j =
        if j ≤ unit then
          (match l[unit - j]? with
           | some d => decide (d.status ≠ 0)
           | none => false)
        else false := by
  intro l
  induction l with
  | nil =>
      intro j
      unfold queryScan
      split <;> simp
  | cons d rest ih =>
      intro j
      unfold queryScan
      rw [ih (j + 1)]
      by_cases hj : unit = j
      · subst hj
        simp
      · by_cases hlt : j + 1 ≤ unit
        · have hle : j ≤ unit := Nat.le_of_succ_le hlt
          rw [if_pos hlt, if_pos hle]
          have hsub : unit - j = (unit - (j + 1)) + 1 := by omega
          rw [hsub]
          simp [hj]
        · have hgt : ¬ j ≤ unit := by omega
          rw [if_neg hlt, if_neg hgt]
          simp [hj]

/-- The source-derived availability check agrees with the spec's wording
of section 4.3: true iff the requested (type, instance) pair exists and
its status bitmask is non-zero. -/
theorem query_eq_spec (b : Bus) (want : DevType) (unit : Nat) :
    query b want unit = deviceAvailableSpec b want unit := by
  cases want with
  | pci =>
      unfold query deviceAvailableSpec Bus.devs
      rw [queryScan_ne DevType.pci DevType.usb unit (by decide) b.usb 0]
      rw [queryScan_same DevType.pci unit b.pci 0]
      simp
  | usb =>
      unfold query deviceAvailableSpec Bus.devs
      rw [queryScan_ne DevType.usb DevType.pci unit (by decide) b.pci 0]
      rw [queryScan_same DevType.usb unit b.usb 0]
      simp

theorem qstep_size (s : St) (e : Event) : (step s e).size = s.size := by
  by_cases hterm : s.pc = Pc.terminated
  · rw [qstep_terminated s e hterm]
  cases e with
  | sig sg => rw [step_sig, if_neg hterm]; simp
  | openR ok =>
      rw [step_openR, if_neg hterm]
      split
      · cases ok <;> simp
      · rfl
  | readR ok d =>
      rw [step_readR, if_neg hterm]
      split
      · cases ok <;> simp
      · split
        · cases ok <;> simp
        · rfl
  | writeR ok =>
      rw [step_writeR, if_neg hterm]
      split
      · cases ok <;> simp
      · rfl

theorem qrun_size (sz : Nat) (es : List Event) : (run (init sz) es).size = sz := by
  have h := foldl_preserves step (fun s => s.size = sz)
    (fun s e hs => by
      show (step s e).size = sz
      rw [qstep_size s e]
      exact hs) es (init sz) rfl
  exact h

end Quantistool

/-- C1: for every run of either tool, the stream handed to the output
sink is exactly the concatenation, in read order, of the units the
source reported as successfully read: the successfully read units equal
the units handed to fwrite plus the at most one in-flight unit (so a
unit reaches the sink only after a successful read, at most once, in
order, with no extra bytes and no buffering beyond the single in-flight
unit), and whenever every fwrite succeeds the accepted output equals
that concatenation exactly. -/
theorem c1_sink_stream_exact :
    (∀ (sz : Nat) (es : List Quantistool.Event),
        (Quantistool.run (Quantistool.init sz) es).srcOk
            = (Quantistool.run (Quantistool.init sz) es).submitted
              ++ Quantistool.inflight (Quantistool.run (Quantistool.init sz) es)
      ∧ ((Quantistool.run (Quantistool.init sz) es).output).Sublist
            ((Quantistool.run (Quantistool.init sz) es).submitted)
      ∧ (Quantistool.writesOk es = true →
            (Quantistool.run (Quantistool.init sz) es).output
              = (Quantistool.run (Quantistool.init sz) es).submitted))
  ∧ (∀ (m : Seventool.Mode) (es : List Seventool.Event),
        (Seventool.run (Seventool.init m) es).srcOk
            = (Seventool.run (Seventool.init m) es).submitted
              ++ Seventool.inflight (Seventool.run (Seventool.init m) es)
      ∧ ((Seventool.run (Seventool.init m) es).output).Sublist
            ((Seventool.run (Seventool.init m) es).submitted)
      ∧ (Seventool.writesOk es = true →
            (Seventool.run (Seventool.init m) es).output
              = (Seventool.run (Seventool.init m) es).submitted)) := by
  constructor
  · intro sz es
    obtain ⟨h1, h2, h3, h4⟩ := Quantistool.qInv_run sz es
    exact ⟨h1, h2, fun hw => Quantistool.q_outsub_run es (Quantistool.init sz) hw rfl⟩
  · intro m es
    obtain ⟨h1, h2, h3, h4⟩ := Seventool.sInv_run m es
    refine ⟨h1, h2, fun hw => Seventool.s_outsub_run es (Seventool.init m) hw ?_⟩
    cases m <;> rfl

/-- Witness for C1 at a concrete run: three events, one successful read,
one successful write. -/
theorem c1_sink_stream_exact_witness :
    (Quantistool.run (Quantistool.init 4)
        [Quantistool.Event.openR true, Quantistool.Event.readR true [1, 2, 3, 4],
         Quantistool.Event.writeR true]).output
      = (Quantistool.run (Quantistool.init 4)
        [Quantistool.Event.openR true, Quantistool.Event.readR true [1, 2, 3, 4],
         Quantistool.Event.writeR true]).submitted :=
  (c1_sink_stream_exact.1 4
    [Quantistool.Event.openR true, Quantistool.Event.readR true [1, 2, 3, 4],
     Quantistool.Event.writeR true]).2.2 (by decide)

/-- C9: in seventool's default FAIL mode no sampling instruction ever
runs (the sampling point is unreachable), `carry` keeps its initial
value 1 and `word` its initial constant 0xDEADC0DE, every iteration
counts as a successful read (`tries = reads`), the successfully read
words are all the constant, and every word written to the sink is the
constant. -/
theorem c9_fail_mode_constant (es : List Seventool.Event) :
    (Seventool.run (Seventool.init Seventool.Mode.fail) es).mode = Seventool.Mode.fail
  ∧ (Seventool.run (Seventool.init Seventool.Mode.fail) es).carry = 1
  ∧ (Seventool.run (Seventool.init Seventool.Mode.fail) es).word = Seventool.DEADCODE
  ∧ Seventool.DEADCODE = 0xDEADC0DE
  ∧ (Seventool.run (Seventool.init Seventool.Mode.fail) es).pc ≠ Seventool.Pc.atSample
  ∧ (Seventool.run (Seventool.init Seventool.Mode.fail) es).output
      = List.replicate
          (Seventool.run (Seventool.init Seventool.Mode.fail) es).output.length
          Seventool.DEADCODE
  ∧ (Seventool.run (Seventool.init Seventool.Mode.fail) es).srcOk
      = List.replicate
          (Seventool.run (Seventool.init Seventool.Mode.fail) es).reads
          Seventool.DEADCODE
  ∧ (Seventool.run (Seventool.init Seventool.Mode.fail) es).tries
      = (Seventool.run (Seventool.init Seventool.Mode.fail) es).reads := by
  obtain ⟨hm, hc, hw, hpc, hout, hsrc, htr⟩ := Seventool.failInv_run es
  exact ⟨hm, hc, hw, rfl, hpc, hout, hsrc, htr⟩

/-- Witness for C9 at a concrete run: two successful writes in FAIL
mode; the loop keeps writing the constant word. -/
theorem c9_fail_mode_constant_witness :
    (Seventool.run (Seventool.init Seventool.Mode.fail)
        [Seventool.Event.writeR true, Seventool.Event.writeR true]).word
      = Seventool.DEADCODE
  ∧ (Seventool.run (Seventool.init Seventool.Mode.fail)
        [Seventool.Event.writeR true, Seventool.Event.writeR true]).pc
      ≠ Seventool.Pc.atSample :=
  ⟨(c9_fail_mode_constant
      [Seventool.Event.writeR true, Seventool.Event.writeR true]).2.2.1,
   (c9_fail_mode_constant
      [Seventool.Event.writeR true, Seventool.Event.writeR true]).2.2.2.2.1⟩

/-- C10: in both tools the read counter and byte total are incremented
before the unit reaches the sink, so at every point total = reads times
the unit size and reads counts exactly the successful reads; while the
write is pending (control at the fwrite) the successfully read units
already include the in-flight one; and after a terminating write
failure the counters still include the final unit that was never
delivered. -/
theorem c10_counters_before_write :
    (∀ (sz : Nat) (es : List Quantistool.Event),
        (Quantistool.run (Quantistool.init sz) es).total
            = (Quantistool.run (Quantistool.init sz) es).reads * sz
      ∧ (Quantistool.run (Quantistool.init sz) es).reads
            = (Quantistool.run (Quantistool.init sz) es).srcOk.length
      ∧ ((Quantistool.run (Quantistool.init sz) es).pc = Quantistool.Pc.atWrite →
            (Quantistool.run (Quantistool.init sz) es).srcOk
              = (Quantistool.run (Quantistool.init sz) es).submitted
                ++ [(Quantistool.run (Quantistool.init sz) es).unitBuf]))
  ∧ (∀ (m : Seventool.Mode) (es : List Seventool.Event),
        (Seventool.run (Seventool.init m) es).total
            = (Seventool.run (Seventool.init m) es).reads * 4
      ∧ (Seventool.run (Seventool.init m) es).reads
            = (Seventool.run (Seventool.init m) es).srcOk.length
      ∧ ((Seventool.run (Seventool.init m) es).pc = Seventool.Pc.atWrite →
            (Seventool.run (Seventool.init m) es).srcOk
              = (Seventool.run (Seventool.init m) es).submitted
                ++ [(Seventool.run (Seventool.init m) es).word]))
  ∧ ((Quantistool.run (Quantistool.init 8)
        [Quantistool.Event.openR true,
         Quantistool.Event.readR true [1, 2, 3, 4, 5, 6, 7, 8],
         Quantistool.Event.writeR false]).reads = 1
      ∧ (Quantistool.run (Quantistool.init 8)
        [Quantistool.Event.openR true,
         Quantistool.Event.readR true [1, 2, 3, 4, 5, 6, 7, 8],
         Quantistool.Event.writeR false]).total = 8
      ∧ (Quantistool.run (Quantistool.init 8)
        [Quantistool.Event.openR true,
         Quantistool.Event.readR true [1, 2, 3, 4, 5, 6, 7, 8],
         Quantistool.Event.writeR false]).output = [])
  ∧ ((Seventool.run (Seventool.init Seventool.Mode.fail)
        [Seventool.Event.writeR false]).reads = 1
      ∧ (Seventool.run (Seventool.init Seventool.Mode.fail)
        [Seventool.Event.writeR false]).total = 4
      ∧ (Seventool.run (Seventool.init Seventool.Mode.fail)
        [Seventool.Event.writeR false]).output = []) := by
  refine ⟨?_, ?_, by decide, by decide⟩
  · intro sz es
    obtain ⟨h1, h2, h3, h4⟩ := Quantistool.qInv_run sz es
    refine ⟨?_, h4, ?_⟩
    · rw [h3, Quantistool.qrun_size sz es]
    · intro hpc
      rw [h1]
      unfold Quantistool.inflight
      rw [hpc]
      simp
  · intro m es
    obtain ⟨h1, h2, h3, h4⟩ := Seventool.sInv_run m es
    refine ⟨h3, h4, ?_⟩
    intro hpc
    rw [h1]
    unfold Seventool.inflight
    rw [hpc]
    simp

/-- Witness for C10 at a concrete run: one successful read pending its
write; the counters already include the in-flight unit. -/
theorem c10_counters_before_write_witness :
    (Quantistool.run (Quantistool.init 4)
        [Quantistool.Event.openR true, Quantistool.Event.readR true [9, 9, 9, 9]]).srcOk
      = (Quantistool.run (Quantistool.init 4)
        [Quantistool.Event.openR true, Quantistool.Event.readR true [9, 9, 9, 9]]).submitted
        ++ [(Quantistool.run (Quantistool.init 4)
        [Quantistool.Event.openR true, Quantistool.Event.readR true [9, 9, 9, 9]]).unitBuf] :=
  ((c10_counters_before_write).1 4
    [Quantistool.Event.openR true, Quantistool.Event.readR true [9, 9, 9, 9]]).2.2
    (by decide)

/-- C2 counterexample: in quantistool a failed fwrite only ends the
inner read loop; with shutdown not requested the outer loop reopens the
device and a further read occurs, so the claim that every failed sink
write terminates the acquisition loop with no further reads is false at
this concrete run. -/
theorem c2_write_failure_counterexample :
    (Quantistool.run (Quantistool.init 4)
        [Quantistool.Event.openR true, Quantistool.Event.readR true [5, 5, 5, 5],
         Quantistool.Event.writeR false]).pc = Quantistool.Pc.atOpen
  ∧ ¬ (Quantistool.run (Quantistool.init 4)
        [Quantistool.Event.openR true, Quantistool.Event.readR true [5, 5, 5, 5],
         Quantistool.Event.writeR false]).pc = Quantistool.Pc.terminated
  ∧ (Quantistool.run (Quantistool.init 4)
        [Quantistool.Event.openR true, Quantistool.Event.readR true [5, 5, 5, 5],
         Quantistool.Event.writeR false, Quantistool.Event.openR true,
         Quantistool.Event.readR true [6, 6, 6, 6]]).reads = 2 := by
  decide

/-- C2 amended: a short or failed sink write is never retried (exactly
one submission of the in-flight unit reaches fwrite) and always ends the
current read loop: seventool terminates for good (its terminated state
absorbs every further event, so no further reads), while quantistool
closes the device and terminates only if shutdown has been requested,
otherwise it falls back to reopening. -/
theorem c2_write_failure_amended :
    (∀ (s : Quantistool.St), s.pc = Quantistool.Pc.atWrite →
        ((Quantistool.step s (Quantistool.Event.writeR false)).submitted
            = s.submitted ++ [s.unitBuf]
          ∧ (Quantistool.step s (Quantistool.Event.writeR false)).handleOpen = false
          ∧ (Quantistool.step s (Quantistool.Event.writeR false)).reads = s.reads
          ∧ (Quantistool.step s (Quantistool.Event.writeR false)).output = s.output
          ∧ (Quantistool.step s (Quantistool.Event.writeR false)).pc
              = (if s.done then Quantistool.Pc.terminated else Quantistool.Pc.atOpen)))
  ∧ (∀ (t : Seventool.St), t.pc = Seventool.Pc.atWrite →
        ((Seventool.step t (Seventool.Event.writeR false)).pc = Seventool.Pc.terminated
          ∧ (Seventool.step t (Seventool.Event.writeR false)).submitted
              = t.submitted ++ [t.word]
          ∧ (Seventool.step t (Seventool.Event.writeR false)).reads = t.reads
          ∧ (Seventool.step t (Seventool.Event.writeR false)).output = t.output))
  ∧ (∀ (t : Seventool.St) (e : Seventool.Event), t.pc = Seventool.Pc.terminated →
        Seventool.step t e = t) := by
  refine ⟨?_, ?_, fun t e ht => Seventool.sstep_terminated t e ht⟩
  · intro s hpc
    have hterm : ¬ s.pc = Quantistool.Pc.terminated := by rw [hpc]; decide
    rw [Quantistool.step_writeR, if_neg hterm, if_pos hpc]
    simp
  · intro t hpc
    have hterm : ¬ t.pc = Seventool.Pc.terminated := by rw [hpc]; decide
    rw [Seventool.sstep_writeR, if_neg hterm, if_pos hpc]
    simp

/-- Witness for the amended C2 at concrete states of both tools. -/
theorem c2_write_failure_amended_witness :
    (Quantistool.step
        (Quantistool.run (Quantistool.init 4)
          [Quantistool.Event.openR true, Quantistool.Event.readR true [5, 5, 5, 5]])
        (Quantistool.Event.writeR false)).pc = Quantistool.Pc.atOpen
  ∧ (Seventool.step (Seventool.init Seventool.Mode.fail)
        (Seventool.Event.writeR false)).pc = Seventool.Pc.terminated := by
  constructor
  · have h := (c2_write_failure_amended.1
      (Quantistool.run (Quantistool.init 4)
        [Quantistool.Event.openR true, Quantistool.Event.readR true [5, 5, 5, 5]])
      (by decide)).2.2.2.2
    rw [h]
    decide
  · exact (c2_write_failure_amended.2.1 (Seventool.init Seventool.Mode.fail)
      (by decide)).1

/-- C3: in hardware-device mode a failed read is retried exactly once
on the same open handle with no counter change; a second consecutive
failure closes the handle and falls back to reopening instead of
terminating; the successful reopen increments opens by exactly one
while reads, and the bytes total, are untouched by the failed attempts;
and only a failure of the open itself terminates the loop for that
source. -/
theorem c3_hw_retry_reopen (s : Quantistool.St) (d1 d2 : List Nat)
    (hpc : s.pc = Quantistool.Pc.atRead1) (hdone : s.done = false) :
    ((Quantistool.step s (Quantistool.Event.readR false d1)).pc = Quantistool.Pc.atRead2
      ∧ (Quantistool.step s (Quantistool.Event.readR false d1)).handleOpen = s.handleOpen
      ∧ (Quantistool.step s (Quantistool.Event.readR false d1)).reads = s.reads
      ∧ (Quantistool.step s (Quantistool.Event.readR false d1)).opens = s.opens)
  ∧ (Quantistool.run s [Quantistool.Event.readR false d1,
        Quantistool.Event.readR false d2]
      = { s with pc := Quantistool.Pc.atOpen, handleOpen := false })
  ∧ ((Quantistool.run s [Quantistool.Event.readR false d1,
        Quantistool.Event.readR false d2, Quantistool.Event.openR true]).opens
          = s.opens + 1
      ∧ (Quantistool.run s [Quantistool.Event.readR false d1,
          Quantistool.Event.readR false d2, Quantistool.Event.openR true]).reads
          = s.reads
      ∧ (Quantistool.run s [Quantistool.Event.readR false d1,
          Quantistool.Event.readR false d2, Quantistool.Event.openR true]).total
          = s.total
      ∧ (Quantistool.run s [Quantistool.Event.readR false d1,
          Quantistool.Event.readR false d2, Quantistool.Event.openR true]).pc
          = Quantistool.Pc.atRead1)
  ∧ (Quantistool.run s [Quantistool.Event.readR false d1,
        Quantistool.Event.readR false d2, Quantistool.Event.openR false]).pc
      = Quantistool.Pc.terminated := by
  have hterm1 : ¬ s.pc = Quantistool.Pc.terminated := by rw [hpc]; decide
  have hA : Quantistool.step s (Quantistool.Event.readR false d1)
      = { s with pc := Quantistool.Pc.atRead2 } := by
    rw [Quantistool.step_readR, if_neg hterm1, if_pos hpc]
    simp
  have hB : Quantistool.step { s with pc := Quantistool.Pc.atRead2 }
      (Quantistool.Event.readR false d2)
      = { s with pc := Quantistool.Pc.atOpen, handleOpen := false } := by
    rw [Quantistool.step_readR]
    simp [Quantistool.exitInner, hdone]
  have hBrun : Quantistool.run s [Quantistool.Event.readR false d1,
      Quantistool.Event.readR false d2]
      = { s with pc := Quantistool.Pc.atOpen, handleOpen := false } := by
    rw [Quantistool.qrun_cons, hA, Quantistool.qrun_cons, hB, Quantistool.qrun_nil]
  have hCrun : Quantistool.run s [Quantistool.Event.readR false d1,
      Quantistool.Event.readR false d2, Quantistool.Event.openR true]
      = Quantistool.innerEntry
          { s with pc := Quantistool.Pc.atOpen, handleOpen := true,
                   opens := s.opens + 1 } := by
    rw [Quantistool.qrun_cons, hA, Quantistool.qrun_cons, hB, Quantistool.qrun_cons,
        Quantistool.qrun_nil, Quantistool.step_openR]
    simp
  have hDrun : Quantistool.run s [Quantistool.Event.readR false d1,
      Quantistool.Event.readR false d2, Quantistool.Event.openR false]
      = { s with pc := Quantistool.Pc.terminated, handleOpen := false } := by
    rw [Quantistool.qrun_cons, hA, Quantistool.qrun_cons, hB, Quantistool.qrun_cons,
        Quantistool.qrun_nil, Quantistool.step_openR]
    simp
  refine ⟨?_, hBrun, ?_, ?_⟩
  · rw [hA]
    exact ⟨rfl, rfl, rfl, rfl⟩
  · rw [hCrun]
    simp [hdone]
  · rw [hDrun]

/-- Witness for C3 at a concrete state: one successful open, then two
failed reads followed by a successful reopen. -/
theorem c3_hw_retry_reopen_witness :
    (Quantistool.run (Quantistool.run (Quantistool.init 4)
        [Quantistool.Event.openR true])
        [Quantistool.Event.readR false [], Quantistool.Event.readR false [],
         Quantistool.Event.openR true]).opens
      = (Quantistool.run (Quantistool.init 4) [Quantistool.Event.openR true]).opens + 1 :=
  (c3_hw_retry_reopen
    (Quantistool.run (Quantistool.init 4) [Quantistool.Event.openR true]) [] []
    (by decide) (by decide)).2.2.1.1

namespace Quantistool

theorem innerEntry_report (s : St) :
    (innerEntry s).report = if s.done then s.report else false := by
  unfold innerEntry reportCheck
  split_ifs <;> simp_all

theorem innerEntry_reported (s : St) :
    (innerEntry s).reported
      = if s.done then s.reported
        else if s.report then s.reported + 1 else s.reported := by
  unfold innerEntry reportCheck
  split_ifs <;> simp_all

end Quantistool

namespace Seventool

theorem sstep_sleep_ok (s : St) :
    step s (Event.sleepR SleepR.ok) =
      if s.pc = Pc.terminated then s
      else if s.pc = Pc.atSleep then loopEntry s
      else s := rfl

theorem sstep_sleep_intr (s : St) :
    step s (Event.sleepR SleepR.intr) =
      if s.pc = Pc.terminated then s
      else if s.pc = Pc.atSleep then loopEntry s
      else s := rfl

theorem sstep_sleep_err (s : St) :
    step s (Event.sleepR SleepR.err) =
      if s.pc = Pc.terminated then s
      else if s.pc = Pc.atSleep then { s with pc := Pc.terminated }
      else s := rfl

theorem loopEntry_pc_atSample (t : St) (h : (loopEntry t).pc = Pc.atSample) :
    (loopEntry t).tries = t.tries + 1 ∧ (loopEntry t).reads = t.reads
      ∧ (loopEntry t).total = t.total := by
  by_cases hd : t.done = true
  · rw [loopEntry_done t hd] at h
    simp at h
  · rw [Bool.not_eq_true] at hd
    by_cases hm : t.mode = Mode.fail
    · rw [loopEntry_not_done_fail t hd hm] at h
      by_cases hc : (({ reportCheck t with tries := t.tries + 1 } : St)).carry = 0
      · rw [afterSample_zero _ hc] at h
        simp at h
      · rw [afterSample_pos _ hc] at h
        simp at h
    · rw [loopEntry_not_done_sample t hd hm]
      refine ⟨by simp, by simp, by simp⟩

end Seventool

/-- C4 counterexample: the claim also asserts an attempts counter
incremented on every successful hardware read, but quantistool has no
such counter: its `try` variable stays 0 after a successful read (it
would have to be 1 for the claim to hold at this input). -/
theorem c4_attempts_counterexample :
    (Quantistool.run (Quantistool.init 512)
        [Quantistool.Event.openR true, Quantistool.Event.readR true [0]]).reads = 1
  ∧ (Quantistool.run (Quantistool.init 512)
        [Quantistool.Event.openR true, Quantistool.Event.readR true [0]]).tryv = 0
  ∧ ¬ (Quantistool.run (Quantistool.init 512)
        [Quantistool.Event.openR true, Quantistool.Event.readR true [0]]).tryv
      = (Quantistool.init 512).tryv + 1 := by
  decide

/-- C4 amended: every successful read increments reads by one and the
byte total by the configured unit size in both tools - in quantistool
whether the success is the first attempt or the immediate retry, in
seventool at any arrival of the sampling point, on any path - every
open increments opens by one (hardware tool; the sampler never opens),
every loop iteration that reaches the sampling instruction increments
tries by exactly one without touching reads or the byte total (so the
attempt producing a successful read adds exactly one to tries), FAIL
mode increments tries, reads and the total together each iteration, and
the hardware tool maintains no attempts counter (its try variable is
never touched). -/
theorem c4_counters_amended :
    (∀ (s : Quantistool.St) (d : List Nat),
        s.pc = Quantistool.Pc.atRead1 ∨ s.pc = Quantistool.Pc.atRead2 →
        ((Quantistool.step s (Quantistool.Event.readR true d)).reads = s.reads + 1
          ∧ (Quantistool.step s (Quantistool.Event.readR true d)).total
              = s.total + s.size
          ∧ (Quantistool.step s (Quantistool.Event.readR true d)).tryv = s.tryv
          ∧ (Quantistool.step s (Quantistool.Event.readR true d)).opens = s.opens))
  ∧ (∀ (s : Quantistool.St), s.pc = Quantistool.Pc.atOpen →
        (Quantistool.step s (Quantistool.Event.openR true)).opens = s.opens + 1)
  ∧ (∀ (t : Seventool.St) (w c : Nat), t.pc = Seventool.Pc.atSample → ¬ c = 0 →
        ((Seventool.step t (Seventool.Event.sampleR w c)).reads = t.reads + 1
          ∧ (Seventool.step t (Seventool.Event.sampleR w c)).total = t.total + 4
          ∧ (Seventool.step t (Seventool.Event.sampleR w c)).tries = t.tries))
  ∧ (∀ (t : Seventool.St) (e : Seventool.Event),
        ¬ t.pc = Seventool.Pc.atSample →
        (Seventool.step t e).pc = Seventool.Pc.atSample →
        ((Seventool.step t e).tries = t.tries + 1
          ∧ (Seventool.step t e).reads = t.reads
          ∧ (Seventool.step t e).total = t.total))
  ∧ (∀ (t : Seventool.St), t.done = false → t.mode = Seventool.Mode.fail →
      ¬ t.carry = 0 →
        ((Seventool.loopEntry t).reads = t.reads + 1
          ∧ (Seventool.loopEntry t).total = t.total + 4
          ∧ (Seventool.loopEntry t).tries = t.tries + 1)) := by
  refine ⟨?_, ?_, ?_, ?_, ?_⟩
  · intro s d hpc
    rcases hpc with hpc | hpc
    · have hterm : ¬ s.pc = Quantistool.Pc.terminated := by rw [hpc]; decide
      rw [Quantistool.step_readR, if_neg hterm, if_pos hpc]
      simp
    · have hterm : ¬ s.pc = Quantistool.Pc.terminated := by rw [hpc]; decide
      have hr1 : ¬ s.pc = Quantistool.Pc.atRead1 := by rw [hpc]; decide
      rw [Quantistool.step_readR, if_neg hterm, if_neg hr1, if_pos hpc]
      simp
  · intro s hpc
    have hterm : ¬ s.pc = Quantistool.Pc.terminated := by rw [hpc]; decide
    rw [Quantistool.step_openR, if_neg hterm, if_pos hpc]
    simp
  · intro t w c hpc hc
    have hterm : ¬ t.pc = Seventool.Pc.terminated := by rw [hpc]; decide
    rw [Seventool.sstep_sampleR, if_neg hterm, if_pos hpc]
    rw [Seventool.afterSample_pos _ (by simpa using hc)]
    refine ⟨by simp, by simp, by simp⟩
  · intro t e h1 h2
    by_cases hterm : t.pc = Seventool.Pc.terminated
    · rw [Seventool.sstep_terminated t e hterm] at h2
      exact absurd h2 h1
    cases e with
    | sig sg =>
        rw [Seventool.sstep_sig, if_neg hterm] at h2
        simp only [Seventool.sApplySig_pc] at h2
        exact absurd h2 h1
    | sampleR w c =>
        rw [Seventool.sstep_sampleR, if_neg hterm] at h2
        rw [if_neg h1] at h2
        exact absurd h2 h1
    | sleepR r =>
        cases r with
        | ok =>
            rw [Seventool.sstep_sleep_ok, if_neg hterm] at h2 ⊢
            by_cases hpc : t.pc = Seventool.Pc.atSleep
            · rw [if_pos hpc] at h2 ⊢
              exact Seventool.loopEntry_pc_atSample t h2
            · rw [if_neg hpc] at h2
              exact absurd h2 h1
        | intr =>
            rw [Seventool.sstep_sleep_intr, if_neg hterm] at h2 ⊢
            by_cases hpc : t.pc = Seventool.Pc.atSleep
            · rw [if_pos hpc] at h2 ⊢
              exact Seventool.loopEntry_pc_atSample t h2
            · rw [if_neg hpc] at h2
              exact absurd h2 h1
        | err =>
            rw [Seventool.sstep_sleep_err, if_neg hterm] at h2
            by_cases hpc : t.pc = Seventool.Pc.atSleep
            · rw [if_pos hpc] at h2
              simp at h2
            · rw [if_neg hpc] at h2
              exact absurd h2 h1
    | writeR ok =>
        rw [Seventool.sstep_writeR, if_neg hterm] at h2 ⊢
        by_cases hpc : t.pc = Seventool.Pc.atWrite
        · rw [if_pos hpc] at h2 ⊢
          cases ok with
          | true =>
              simp only [reduceIte] at h2 ⊢
              obtain ⟨ht, hr, htot⟩ := Seventool.loopEntry_pc_atSample
                { t with submitted := t.submitted ++ [t.word],
                         output := t.output ++ [t.word] } h2
              exact ⟨by simpa using ht, by simpa using hr, by simpa using htot⟩
          | false =>
              simp only [Bool.false_eq_true, reduceIte] at h2
              simp at h2
        · rw [if_neg hpc] at h2
          exact absurd h2 h1
  · intro t hdone hmode hc
    rw [Seventool.loopEntry_not_done_fail t hdone hmode]
    rw [Seventool.afterSample_pos _ (by simpa using hc)]
    refine ⟨by simp, by simp, by simp⟩

/-- Witness for the amended C4 at concrete states exercising each part:
a quantistool retry success, a seventool success after a sleep retry,
an entry into the sampling point, and a FAIL-mode iteration. -/
theorem c4_counters_amended_witness :
    (Quantistool.step
        (Quantistool.run (Quantistool.init 4)
          [Quantistool.Event.openR true, Quantistool.Event.readR false []])
        (Quantistool.Event.readR true [1, 2, 3, 4])).reads
      = (Quantistool.run (Quantistool.init 4)
          [Quantistool.Event.openR true, Quantistool.Event.readR false []]).reads + 1
  ∧ (Seventool.step
        (Seventool.run (Seventool.init Seventool.Mode.rdrand)
          [Seventool.Event.sampleR 5 0, Seventool.Event.sleepR Seventool.SleepR.ok])
        (Seventool.Event.sampleR 9 1)).reads
      = (Seventool.run (Seventool.init Seventool.Mode.rdrand)
          [Seventool.Event.sampleR 5 0,
           Seventool.Event.sleepR Seventool.SleepR.ok]).reads + 1
  ∧ (Seventool.step
        (Seventool.run (Seventool.init Seventool.Mode.rdrand)
          [Seventool.Event.sampleR 5 0])
        (Seventool.Event.sleepR Seventool.SleepR.ok)).tries
      = (Seventool.run (Seventool.init Seventool.Mode.rdrand)
          [Seventool.Event.sampleR 5 0]).tries + 1
  ∧ (Seventool.loopEntry (Seventool.init Seventool.Mode.fail)).reads
      = (Seventool.init Seventool.Mode.fail).reads + 1 :=
  ⟨(c4_counters_amended.1
      (Quantistool.run (Quantistool.init 4)
        [Quantistool.Event.openR true, Quantistool.Event.readR false []])
      [1, 2, 3, 4] (Or.inr (by decide))).1,
   (c4_counters_amended.2.2.1
      (Seventool.run (Seventool.init Seventool.Mode.rdrand)
        [Seventool.Event.sampleR 5 0, Seventool.Event.sleepR Seventool.SleepR.ok])
      9 1 (by decide) (by decide)).1,
   (c4_counters_amended.2.2.2.1
      (Seventool.run (Seventool.init Seventool.Mode.rdrand)
        [Seventool.Event.sampleR 5 0])
      (Seventool.Event.sleepR Seventool.SleepR.ok) (by decide) (by decide)).1,
   (c4_counters_amended.2.2.2.2 (Seventool.init Seventool.Mode.fail)
      rfl rfl (by decide)).1⟩

/-- C5 counterexample: with check mode requested and no matching device
(empty busses), quantistool skips the acquisition loop but exits with
code 1, the generic failure code, not 0 as the claim states. -/
theorem c5_check_absent_counterexample :
    (Quantistool.main
        { dtype := Quantistool.DevType.usb, unit := 0, size := 512, check := true,
          usePath := false, daemonize := false }
        { daemonOk := true, mallocOk := true, sigPipeOk := true, sigHupOk := true,
          sigIntOk := true, fopenOk := true, bus := { pci := [], usb := [] },
          events := [] }).xc = 1
  ∧ ¬ (Quantistool.main
        { dtype := Quantistool.DevType.usb, unit := 0, size := 512, check := true,
          usePath := false, daemonize := false }
        { daemonOk := true, mallocOk := true, sigPipeOk := true, sigHupOk := true,
          sigIntOk := true, fopenOk := true, bus := { pci := [], usb := [] },
          events := [] }).xc = 0
  ∧ (Quantistool.main
        { dtype := Quantistool.DevType.usb, unit := 0, size := 512, check := true,
          usePath := false, daemonize := false }
        { daemonOk := true, mallocOk := true, sigPipeOk := true, sigHupOk := true,
          sigIntOk := true, fopenOk := true, bus := { pci := [], usb := [] },
          events := [] }).loopEntered = false := by
  decide

/-- C5 amended: when check mode is requested and the requested (type,
instance) device is absent or its status bitmask is zero, the process
skips the acquisition loop (no buffer allocation, no sink open, no
loop), but it exits with code 1 - the program's generic failure exit
code, xc never having been set to 0 - rather than 0. -/
theorem c5_check_absent_amended (cfg : Quantistool.Config) (env : Quantistool.MainEnv)
    (hcheck : cfg.check = true)
    (habs : Quantistool.deviceAvailableSpec env.bus cfg.dtype cfg.unit = false)
    (hd : cfg.daemonize = false ∨ env.daemonOk = true) :
    (Quantistool.main cfg env).xc = 1
  ∧ (Quantistool.main cfg env).queried = true
  ∧ (Quantistool.main cfg env).loopEntered = false
  ∧ (Quantistool.main cfg env).bufferAllocated = false
  ∧ (Quantistool.main cfg env).fopenTried = false
  ∧ (Quantistool.main cfg env).finalS = none := by
  have hq : Quantistool.query env.bus cfg.dtype cfg.unit = false := by
    rw [Quantistool.query_eq_spec]
    exact habs
  have hdm : (cfg.daemonize && !env.daemonOk) = false := by
    rcases hd with h | h <;> simp [h]
  unfold Quantistool.main
  rw [hdm, hq, hcheck]
  simp

/-- Witness for the amended C5: USB unit 0 requested, one USB device
present but with a zero status bitmask. -/
theorem c5_check_absent_amended_witness :
    (Quantistool.main
        { dtype := Quantistool.DevType.usb, unit := 0, size := 512, check := true,
          usePath := false, daemonize := false }
        { daemonOk := true, mallocOk := true, sigPipeOk := true, sigHupOk := true,
          sigIntOk := true, fopenOk := true,
          bus := { pci := [], usb := [{ status := 0 }] }, events := [] }).xc = 1 :=
  (c5_check_absent_amended
    { dtype := Quantistool.DevType.usb, unit := 0, size := 512, check := true,
      usePath := false, daemonize := false }
    { daemonOk := true, mallocOk := true, sigPipeOk := true, sigHupOk := true,
      sigIntOk := true, fopenOk := true,
      bus := { pci := [], usb := [{ status := 0 }] }, events := [] }
    rfl (by decide) (Or.inl rfl)).1

/-- C6: on a sampling attempt whose carry flag is clear, the sampler
forwards nothing to the sink and moves to the fixed one-millisecond
nanosleep (request 0 s, 1000000 ns); a sleep that returns success or
fails with EINTR alike causes an immediate retry of the sampling
attempt (a fresh iteration: tries grows by one, nothing was written,
and the loop is back at the sampling instruction - the sampler never
closes or reopens anything, having no handle at all). -/
theorem c6_sampler_backoff (t : Seventool.St) (w : Nat) :
    Seventool.requestTvSec = 0
  ∧ Seventool.requestTvNsec = 1000000
  ∧ (t.pc = Seventool.Pc.atSample →
        ((Seventool.step t (Seventool.Event.sampleR w 0)).pc = Seventool.Pc.atSleep
          ∧ (Seventool.step t (Seventool.Event.sampleR w 0)).output = t.output
          ∧ (Seventool.step t (Seventool.Event.sampleR w 0)).submitted = t.submitted
          ∧ (Seventool.step t (Seventool.Event.sampleR w 0)).reads = t.reads
          ∧ (Seventool.step t (Seventool.Event.sampleR w 0)).srcOk = t.srcOk))
  ∧ (t.pc = Seventool.Pc.atSleep → t.done = false → ¬ t.mode = Seventool.Mode.fail →
        ((Seventool.step t (Seventool.Event.sleepR Seventool.SleepR.ok)).pc
            = Seventool.Pc.atSample
          ∧ Seventool.step t (Seventool.Event.sleepR Seventool.SleepR.intr)
              = Seventool.step t (Seventool.Event.sleepR Seventool.SleepR.ok)
          ∧ (Seventool.step t (Seventool.Event.sleepR Seventool.SleepR.ok)).tries
              = t.tries + 1
          ∧ (Seventool.step t (Seventool.Event.sleepR Seventool.SleepR.ok)).output
              = t.output
          ∧ (Seventool.step t (Seventool.Event.sleepR Seventool.SleepR.ok)).reads
              = t.reads
          ∧ (Seventool.step t (Seventool.Event.sleepR Seventool.SleepR.ok)).word
              = t.word
          ∧ (Seventool.step t (Seventool.Event.sleepR Seventool.SleepR.ok)).srcOk
              = t.srcOk)) := by
  refine ⟨rfl, rfl, ?_, ?_⟩
  · intro hpc
    have hterm : ¬ t.pc = Seventool.Pc.terminated := by rw [hpc]; decide
    rw [Seventool.sstep_sampleR, if_neg hterm, if_pos hpc]
    rw [Seventool.afterSample_zero _ (by simp)]
    simp
  · intro hpc hdone hmode
    have hterm : ¬ t.pc = Seventool.Pc.terminated := by rw [hpc]; decide
    rw [Seventool.sstep_sleep_ok, Seventool.sstep_sleep_intr,
        if_neg hterm, if_pos hpc]
    rw [Seventool.loopEntry_not_done_sample t hdone hmode]
    simp

/-- Witness for C6: in rdrand mode after one failed sample the machine
is at the sleep; a successful or interrupted sleep returns it to the
sampling point. -/
theorem c6_sampler_backoff_witness :
    (Seventool.step
        (Seventool.run (Seventool.init Seventool.Mode.rdrand)
          [Seventool.Event.sampleR 5 0])
        (Seventool.Event.sleepR Seventool.SleepR.ok)).pc = Seventool.Pc.atSample :=
  ((c6_sampler_backoff
    (Seventool.run (Seventool.init Seventool.Mode.rdrand)
      [Seventool.Event.sampleR 5 0]) 5).2.2.2
    (by decide) (by decide) (by decide)).1

/-- C7 counterexample: with read size 0 and check mode requested on a
host with no matching device, the process exits with code 1 (the check
break is taken before the size-zero break), so the claim's
unconditional exit code 0 is false at this concrete input. -/
theorem c7_size_zero_counterexample :
    (Quantistool.main
        { dtype := Quantistool.DevType.usb, unit := 0, size := 0, check := true,
          usePath := false, daemonize := false }
        { daemonOk := true, mallocOk := true, sigPipeOk := true, sigHupOk := true,
          sigIntOk := true, fopenOk := true, bus := { pci := [], usb := [] },
          events := [] }).xc = 1
  ∧ ¬ (Quantistool.main
        { dtype := Quantistool.DevType.usb, unit := 0, size := 0, check := true,
          usePath := false, daemonize := false }
        { daemonOk := true, mallocOk := true, sigPipeOk := true, sigHupOk := true,
          sigIntOk := true, fopenOk := true, bus := { pci := [], usb := [] },
          events := [] }).xc = 0 := by
  decide

/-- C7 amended: with a configured read size of zero, the process
performs the availability query and then terminates without allocating
the read buffer, without opening the configured output path, and
without ever entering the work loop (hence never the read state); its
exit code is 0 unless check mode was requested and the query failed, in
which case the check break fires first and the exit code is 1. -/
theorem c7_size_zero_amended (cfg : Quantistool.Config) (env : Quantistool.MainEnv)
    (hsz : cfg.size = 0)
    (hd : cfg.daemonize = false ∨ env.daemonOk = true) :
    (Quantistool.main cfg env).queried = true
  ∧ (Quantistool.main cfg env).bufferAllocated = false
  ∧ (Quantistool.main cfg env).fopenTried = false
  ∧ (Quantistool.main cfg env).loopEntered = false
  ∧ (Quantistool.main cfg env).finalS = none
  ∧ (Quantistool.main cfg env).xc
      = (if Quantistool.query env.bus cfg.dtype cfg.unit = false ∧ cfg.check = true
         then 1 else 0) := by
  have hdm : (cfg.daemonize && !env.daemonOk) = false := by
    rcases hd with h | h <;> simp [h]
  unfold Quantistool.main
  rw [hdm]
  cases hq : Quantistool.query env.bus cfg.dtype cfg.unit <;>
    cases hchk : cfg.check <;>
      simp [hsz, hq, hchk]

/-- Witness for the amended C7: size 0, no check requested, empty
busses; the process queries and exits 0 with nothing allocated or
opened. -/
theorem c7_size_zero_amended_witness :
    (Quantistool.main
        { dtype := Quantistool.DevType.usb, unit := 0, size := 0, check := false,
          usePath := false, daemonize := false }
        { daemonOk := true, mallocOk := true, sigPipeOk := true, sigHupOk := true,
          sigIntOk := true, fopenOk := true, bus := { pci := [], usb := [] },
          events := [] }).bufferAllocated = false :=
  (c7_size_zero_amended
    { dtype := Quantistool.DevType.usb, unit := 0, size := 0, check := false,
      usePath := false, daemonize := false }
    { daemonOk := true, mallocOk := true, sigPipeOk := true, sigHupOk := true,
      sigIntOk := true, fopenOk := true, bus := { pci := [], usb := [] },
      events := [] }
    rfl (Or.inl rfl)).2.1

/-- C8: the report check at the top of a loop iteration, in both tools,
emits exactly one statistics line and clears the flag when it is set
and does nothing when it is clear; it touches neither the shutdown flag
nor any counter; repeated SIGHUP deliveries before the check collapse
to one pending report (the handler is idempotent), and the two flags
are independent (SIGHUP leaves done alone, SIGINT leaves report alone);
at the loop level, completing an iteration with the flag set produces
exactly one emission, resets the flag, and leaves done and the
counters as the rest of the iteration sets them. -/
theorem c8_report_flag (s : Quantistool.St) (t : Seventool.St) :
    ((s.report = true →
        Quantistool.reportCheck s
          = { s with report := false, reported := s.reported + 1 })
      ∧ (s.report = false → Quantistool.reportCheck s = s)
      ∧ Quantistool.applySig (Quantistool.applySig s Quantistool.Sig.sighup)
            Quantistool.Sig.sighup
          = Quantistool.applySig s Quantistool.Sig.sighup
      ∧ (Quantistool.applySig s Quantistool.Sig.sighup).done = s.done
      ∧ (Quantistool.applySig s Quantistool.Sig.sigint).report = s.report)
  ∧ ((t.report = true →
        Seventool.reportCheck t
          = { t with report := false, reported := t.reported + 1 })
      ∧ (t.report = false → Seventool.reportCheck t = t)
      ∧ Seventool.applySig (Seventool.applySig t Seventool.Sig.sighup)
            Seventool.Sig.sighup
          = Seventool.applySig t Seventool.Sig.sighup
      ∧ (Seventool.applySig t Seventool.Sig.sighup).done = t.done
      ∧ (Seventool.applySig t Seventool.Sig.sigint).report = t.report)
  ∧ (s.done = false → s.pc = Quantistool.Pc.atWrite →
        ((Quantistool.step s (Quantistool.Event.writeR true)).report = false
          ∧ (Quantistool.step s (Quantistool.Event.writeR true)).reported
              = (if s.report then s.reported + 1 else s.reported)
          ∧ (Quantistool.step s (Quantistool.Event.writeR true)).done = false
          ∧ (Quantistool.step s (Quantistool.Event.writeR true)).opens = s.opens
          ∧ (Quantistool.step s (Quantistool.Event.writeR true)).reads = s.reads
          ∧ (Quantistool.step s (Quantistool.Event.writeR true)).total = s.total)) := by
  refine ⟨⟨?_, ?_, rfl, rfl, rfl⟩, ⟨?_, ?_, rfl, rfl, rfl⟩, ?_⟩
  · intro h
    unfold Quantistool.reportCheck
    rw [if_pos h]
  · intro h
    unfold Quantistool.reportCheck
    rw [if_neg (by simp [h])]
  · intro h
    unfold Seventool.reportCheck
    rw [if_pos h]
  · intro h
    unfold Seventool.reportCheck
    rw [if_neg (by simp [h])]
  · intro hdone hpc
    have hterm : ¬ s.pc = Quantistool.Pc.terminated := by rw [hpc]; decide
    rw [Quantistool.step_writeR, if_neg hterm, if_pos hpc]
    simp only [reduceIte]
    refine ⟨?_, ?_, ?_, by simp, by simp, by simp⟩
    · rw [Quantistool.innerEntry_report]
      simp [hdone]
    · rw [Quantistool.innerEntry_reported]
      simp [hdone]
    · rw [Quantistool.innerEntry_done]
      simpa using hdone

/-- Witness for C8 at concrete states with the report flag set. -/
theorem c8_report_flag_witness :
    Quantistool.reportCheck { Quantistool.init 4 with report := true }
      = { { Quantistool.init 4 with report := true } with
          report := false,
          reported := ({ Quantistool.init 4 with report := true } :
            Quantistool.St).reported + 1 }
  ∧ Seventool.reportCheck { Seventool.init Seventool.Mode.fail with report := true }
      = { { Seventool.init Seventool.Mode.fail with report := true } with
          report := false,
          reported := ({ Seventool.init Seventool.Mode.fail with report := true } :
            Seventool.St).reported + 1 } :=
  ⟨(c8_report_flag { Quantistool.init 4 with report := true }
      { Seventool.init Seventool.Mode.fail with report := true }).1.1 rfl,
   (c8_report_flag { Quantistool.init 4 with report := true }
      { Seventool.init Seventool.Mode.fail with report := true }).2.1.1 rfl⟩
